import Mathlib

/-!
Verification of the Campaign Metrics and External-API Client core of the
repository (source: `src/lgm_client.py`).

The shallow embedding below translates the Python source line by line:

* JSON response bodies become the inductive `Json`; Python's `dict.get(key,
  default)` becomes `dget` (raising `AttributeError` when the receiver is not
  a dict, as Python does) and `dgetNum` when the looked-up value is consumed
  as an integer counter.
* Python exceptions become the `PyErr` error type of an `Except PyErr`
  computation; the `LGMAPIError` class of the source is the `lgmApiError`
  constructor, and raw (unwrapped) exceptions keep their own constructors.
* The `requests` library is an oracle `http : HttpRequest → HttpResult`
  supplied by each theorem: `HttpRequest` records the method, url, query
  parameters and the `timeout` keyword actually passed at each call site,
  and `HttpResult` is either a raised transport exception (with its message)
  or a response with status code, reason, reported url and an optional
  parsed JSON body (`none` models an unparseable body).
* Python's `float` percentages are embedded as exact rationals; `round(x, 2)`
  is `pyRound2`, round-half-to-even at two decimal places.
-/

/-- JSON values as returned by `response.json()` in `src/lgm_client.py`. -/
inductive Json where
  | num (n : Int)
  | str (s : String)
  | arr (xs : List Json)
  | obj (fields : List (String × Json))

/-- Python exceptions that the code under `src/lgm_client.py` can raise.
`lgmApiError` is the source's `LGMAPIError` class (line 223); the remaining
constructors are built-in Python / `requests` exceptions that escape
unwrapped. -/
inductive PyErr where
  | attributeError
  | typeError
  | valueError (msg : String)
  | lgmApiError (msg : String)
  | requestException (msg : String)
  | httpError (msg : String)
  | jsonDecodeError
deriving DecidableEq, Repr

/-- Result type of the embedded Python computations. -/
abbrev PyResult (α : Type) : Type := Except PyErr α

instance {ε α : Type} [DecidableEq ε] [DecidableEq α] : DecidableEq (Except ε α) :=
  fun x y =>
    match x, y with
    | .ok a, .ok b =>
      match decEq a b with
      | isTrue h => isTrue (by rw [h])
      | isFalse h => isFalse (by intro hc; cases hc; exact h rfl)
    | .error a, .error b =>
      match decEq a b with
      | isTrue h => isTrue (by rw [h])
      | isFalse h => isFalse (by intro hc; cases hc; exact h rfl)
    | .ok _, .error _ => isFalse (by intro hc; cases hc)
    | .error _, .ok _ => isFalse (by intro hc; cases hc)

/-- Returns `true` on JSON values that are plain numbers. -/
def isNumVal : Json → Bool
  | .num _ => true
  | _ => false

/-- Python's `d.get(key, default)` on a value `d` (lines 192-218): returns the
stored value or the default when `d` is a dict, and raises `AttributeError`
when `d` is any other JSON value (ints, strings and lists have no `.get`). -/
def dget (j : Json) (key : String) (default : Json) : PyResult Json :=
  match j with
  | .obj fields => .ok ((List.lookup key fields).getD default)
  | _ => .error .attributeError

/-- Python's `d.get(key, default)` where the source consumes the result as an integer
counter (the `CampaignStats` constructor arguments, lines 210-219).  A present
non-numeric value is a `TypeError` (Python would defer the failure to the
first arithmetic use of the counter; the embedding raises at lookup time). -/
def dgetNum (j : Json) (key : String) (default : Int) : PyResult Int :=
  match j with
  | .obj fields =>
    match List.lookup key fields with
    | none => .ok default
    | some (.num n) => .ok n
    | some _ => .error .typeError
  | _ => .error .attributeError

-- The arithmetic of the embedded rationals is kept reducible so that the
-- concrete rate computations below evaluate inside `decide`.
unseal Rat.mul Rat.add Rat.sub Rat.inv

/-- Round half to even, the rounding mode of Python's built-in `round`:
round to the nearest integer, and to the even neighbour on a tie. -/
def roundHalfEven (x : ℚ) : ℤ :=
  if x - (⌊x⌋ : ℚ) < 1/2 then ⌊x⌋
  else if 1/2 < x - (⌊x⌋ : ℚ) then ⌊x⌋ + 1
  else if ⌊x⌋ % 2 = 0 then ⌊x⌋ else ⌊x⌋ + 1

/-- Python's `round(x, 2)` (lines 31-68), on the exact rational value. -/
def pyRound2 (x : ℚ) : ℚ := (roundHalfEven (x * 100) : ℚ) / 100

/-- The rate pattern shared by every `@property` of `CampaignStats`
(lines 27-68): `if den == 0: return 0.0` then `round((num / den) * 100, 2)`. -/
def rateOf (num den : Int) : ℚ :=
  if den = 0 then 0 else pyRound2 ((num : ℚ) / (den : ℚ) * 100)

/-- The `CampaignStats` dataclass (lines 11-25); every counter defaults
to `0` exactly as in the source. -/
structure CampaignStats where
  campaign_id : String
  campaign_name : String
  total_leads : Int := 0
  emails_sent : Int := 0
  emails_opened : Int := 0
  emails_clicked : Int := 0
  emails_replied : Int := 0
  linkedin_sent : Int := 0
  linkedin_accepted : Int := 0
  linkedin_replied : Int := 0
  total_replies : Int := 0
  total_conversions : Int := 0
deriving DecidableEq, Repr

/-- The `open_rate` property (lines 27-31). -/
def CampaignStats.open_rate (c : CampaignStats) : ℚ :=
  rateOf c.emails_opened c.emails_sent

/-- The `click_rate` property (lines 33-37). -/
def CampaignStats.click_rate (c : CampaignStats) : ℚ :=
  rateOf c.emails_clicked c.emails_sent

/-- The `email_reply_rate` property (lines 39-43). -/
def CampaignStats.email_reply_rate (c : CampaignStats) : ℚ :=
  rateOf c.emails_replied c.emails_sent

/-- The `linkedin_acceptance_rate` property (lines 45-49). -/
def CampaignStats.linkedin_acceptance_rate (c : CampaignStats) : ℚ :=
  rateOf c.linkedin_accepted c.linkedin_sent

/-- The `linkedin_reply_rate` property (lines 51-55). -/
def CampaignStats.linkedin_reply_rate (c : CampaignStats) : ℚ :=
  rateOf c.linkedin_replied c.linkedin_sent

/-- The `overall_reply_rate` property (lines 57-62): the denominator is
`emails_sent + linkedin_sent` and the numerator the stored `total_replies`. -/
def CampaignStats.overall_reply_rate (c : CampaignStats) : ℚ :=
  rateOf c.total_replies (c.emails_sent + c.linkedin_sent)

/-- The `conversion_rate` property (lines 64-68). -/
def CampaignStats.conversion_rate (c : CampaignStats) : ℚ :=
  rateOf c.total_conversions c.total_leads

/-- One HTTP request as issued through the `requests` library: the method,
the url, the query parameters, the optional JSON payload and the value of the
`timeout` keyword actually passed at the call site (`none` when the source
passes no timeout). -/
structure HttpRequest where
  method : String
  url : String
  params : List (String × String)
  body : Option Json := none
  timeout : Option Nat := none

/-- Outcome of one HTTP call, as observed by the code under `src/`:
either the `requests` call raises (connection failure, timeout, ...) with a
message, or a response arrives carrying a status code, a reason phrase, the
url the response reports (which `requests` builds from the request url plus
its encoded query string) and an optional parsed JSON body, `none` standing
for a body `response.json()` cannot parse. -/
inductive HttpResult where
  | raised (msg : String)
  | response (status : Nat) (reason : String) (respUrl : String) (body : Option Json)

/-- The transport layer is an oracle mapping each issued request to its
outcome. -/
abbrev Transport : Type := HttpRequest → HttpResult

/-- The message of the `requests.exceptions.HTTPError` raised by
`response.raise_for_status()` for a 4xx/5xx status. -/
def raiseForStatusMsg (status : Nat) (reason respUrl : String) : String :=
  if status < 500 then
    toString status ++ " Client Error: " ++ reason ++ " for url: " ++ respUrl
  else
    toString status ++ " Server Error: " ++ reason ++ " for url: " ++ respUrl

/-- The `LGMClient` class (line 71): `__init__` stores only `api_key`
(line 76-77). -/
structure LGMClient where
  api_key : String

/-- The class attribute `LGMClient.BASE_URL` of line 74. -/
def LGMClient.BASE_URL : String := "https://apiv2.lagrowthmachine.com/flow"

/-- Python attribute lookup on an `LGMClient` instance: first the instance
dictionary (populated by `__init__`, line 77), then the class attributes
(line 74); a miss raises `AttributeError`.  Lookup is case sensitive, so
`base_url` (line 128) finds neither `api_key` nor `BASE_URL`. -/
def LGMClient.getAttr (c : LGMClient) (name : String) : PyResult String :=
  match List.lookup name [("api_key", c.api_key)] with
  | some v => .ok v
  | none =>
    match List.lookup name [("BASE_URL", LGMClient.BASE_URL)] with
    | some v => .ok v
    | none => .error .attributeError

/-- The tail of `_make_request`'s `try` block plus its `except` clause
(lines 92-95): `raise_for_status`, then `response.json()`; every
`requests.exceptions.RequestException` (raised transport call, `HTTPError`
from `raise_for_status`, `JSONDecodeError` from `response.json()`) is caught
and re-raised as `LGMAPIError(f"API request failed: {str(e)}")`. -/
def handleResponse (r : HttpResult) : PyResult Json :=
  match r with
  | .raised msg => .error (.lgmApiError ("API request failed: " ++ msg))
  | .response status reason respUrl body =>
    if 400 ≤ status ∧ status < 600 then
      .error (.lgmApiError ("API request failed: " ++ raiseForStatusMsg status reason respUrl))
    else
      match body with
      | none => .error (.lgmApiError
          ("API request failed: " ++ "Expecting value: line 1 column 1 (char 0)"))
      | some j => .ok j

/-- Method `_make_request` (lines 79-95): builds the url from `BASE_URL`, sends the
api key as the `apikey` query parameter with `timeout=30`, dispatches on the
method, and raises `ValueError` (uncaught by the `except`, which only
matches `RequestException`) for any other method. -/
def LGMClient.make_request (c : LGMClient) (http : Transport) (endpoint : String)
    (method : String := "GET") (data : Option Json := none) : PyResult Json :=
  let url := LGMClient.BASE_URL ++ "/" ++ endpoint
  if method = "GET" then
    let req : HttpRequest :=
      { method := "GET", url := url, params := [("apikey", c.api_key)],
        timeout := some 30 }
    handleResponse (http req)
  else if method = "POST" then
    let req : HttpRequest :=
      { method := "POST", url := url, params := [("apikey", c.api_key)],
        body := data, timeout := some 30 }
    handleResponse (http req)
  else
    .error (.valueError ("Unsupported method: " ++ method))

/-- Method `get_campaign_stats` (lines 113-115): one authenticated request for a
single campaign's raw stats. -/
def LGMClient.get_campaign_stats (c : LGMClient) (http : Transport)
    (campaign_id : String) : PyResult Json :=
  c.make_request http ("campaigns/" ++ campaign_id ++ "/stats")

/-- The response handling of `get_campaigns` (lines 135-139): a bare
`requests.get` with *no* timeout and *no* `try`/`except`, so
`raise_for_status` and `response.json()` failures escape as raw exceptions
(never as `LGMAPIError`); on success the code returns
`data.get("campaigns", [])`, which the caller then iterates. -/
def pageResponse (r : HttpResult) : PyResult (List Json) :=
  match r with
  | .raised msg => .error (.requestException msg)
  | .response status reason respUrl body =>
    if 400 ≤ status ∧ status < 600 then
      .error (.httpError (raiseForStatusMsg status reason respUrl))
    else
      match body with
      | none => .error .jsonDecodeError
      | some data =>
        match dget data "campaigns" (.arr []) with
        | .error e => .error e
        | .ok (.arr xs) => .ok xs
        | .ok _ => .error .typeError

/-- Method `get_campaigns` (lines 117-139).  Line 128 reads `self.base_url`, an
attribute that does not exist (the class only defines `BASE_URL`), so every
call raises `AttributeError` before any request is issued. -/
def LGMClient.get_campaigns (c : LGMClient) (http : Transport)
    (skip : Int := 0) (limit : Int := 25) : PyResult (List Json) :=
  match c.getAttr "base_url" with
  | .error e => .error e
  | .ok base =>
    let req : HttpRequest :=
      { method := "GET", url := base ++ "/campaigns",
        params := [("apikey", c.api_key), ("skip", toString skip),
                   ("limit", toString limit)] }
    pageResponse (http req)

/-- The page request that lines 128-135 construct once the `base_url` slip is
repaired (reading the class attribute `BASE_URL` instead): it is issued
outside `_make_request`, with no `timeout` keyword. -/
def LGMClient.page_request_fixed (c : LGMClient) (skip limit : Int) : HttpRequest :=
  { method := "GET", url := LGMClient.BASE_URL ++ "/campaigns",
    params := [("apikey", c.api_key), ("skip", toString skip),
               ("limit", toString limit)] }

/-- Variant of `get_campaigns` with the `base_url` slip repaired, used to examine the
behaviour of the page fetch beyond the attribute error: the raw exceptions
of `pageResponse` and the missing timeout are unchanged. -/
def LGMClient.get_campaigns_fixed (c : LGMClient) (http : Transport)
    (skip limit : Int) : PyResult (List Json) :=
  pageResponse (http (c.page_request_fixed skip limit))

/-- The `while True` pagination loop of `get_all_campaigns` (lines 148-161),
calling the `get_campaigns` of the source: start at `skip = 0` with
`limit = 25`, stop on an empty page, extend the accumulator, stop on a short
page, else advance `skip` by `limit`.  The loop is unbounded in the source;
`fuel` makes it definable, with `none` meaning the iteration budget was
exhausted while the loop was still running. -/
def LGMClient.get_all_campaigns_go (c : LGMClient) (http : Transport) :
    Nat → Int → List Json → Option (PyResult (List Json))
  | 0, _, _ => none
  | fuel + 1, skip, acc =>
    match c.get_campaigns http skip 25 with
    | .error e => some (.error e)
    | .ok page =>
      if page.isEmpty then some (.ok acc)
      else if page.length < 25 then some (.ok (acc ++ page))
      else c.get_all_campaigns_go http fuel (skip + 25) (acc ++ page)

/-- Method `get_all_campaigns` (lines 141-161). -/
def LGMClient.get_all_campaigns (c : LGMClient) (http : Transport)
    (fuel : Nat) : Option (PyResult (List Json)) :=
  c.get_all_campaigns_go http fuel 0 []

/-- The pagination loop of lines 148-161 in isolation, parameterized by a
working page fetch `fetchPage skip` (the source's own `get_campaigns` raises
`AttributeError` on every call, see `LGMClient.get_campaigns`).  Returns the
collected items (or `none` when the fuel ran out with the loop still
running) together with the number of page requests issued. -/
def pageLoopGo (fetchPage : Nat → List Json) :
    Nat → Nat → List Json → Nat → Option (List Json) × Nat
  | 0, _, _, reqs => (none, reqs)
  | fuel + 1, skip, acc, reqs =>
    let page := fetchPage skip
    if page.isEmpty then (some acc, reqs + 1)
    else if page.length < 25 then (some (acc ++ page), reqs + 1)
    else pageLoopGo fetchPage fuel (skip + 25) (acc ++ page) (reqs + 1)

/-- The pagination loop started the way lines 148-150 start it. -/
def pageLoop (fetchPage : Nat → List Json) (fuel : Nat) :
    Option (List Json) × Nat :=
  pageLoopGo fetchPage fuel 0 [] 0

/-- The loop terminates on a given upstream when some finite iteration
budget suffices. -/
def pageLoopTerminates (fetchPage : Nat → List Json) : Prop :=
  ∃ fuel, ((pageLoop fetchPage fuel).1).isSome = true

/-- Standard `skip`/`limit` upstream semantics over a fixed campaign list:
the page at offset `skip` is the next (at most) 25 items. -/
def pagesOf (items : List Json) (skip : Nat) : List Json :=
  (items.drop skip).take 25

/-- An upstream that echoes a full 25-item page forever, with no progress. -/
def echoPages : Nat → List Json :=
  fun _ => List.replicate 25 (Json.obj [])

/-- Method `_parse_campaign_stats` (lines 189-220), translated statement by
statement; `self` is never read by the method body.  Each `.get` is `dget`
(or `dgetNum` where the value is consumed as a counter), with the eager
evaluation order of Python's argument expressions preserved. -/
def parse_campaign_stats (campaign_id campaign_name : String) (stats : Json) :
    PyResult CampaignStats := do
  let engagement ← dget stats "engagementStats" stats
  let channel ← dget engagement "channel" (.obj [])
  let email_channel ← dget channel "email" (.obj [])
  let linkedin_channel ← dget channel "linkedin" (.obj [])
  let linkedin_message ← dget linkedin_channel "message" (.obj [])
  let linkedin_request ← dget linkedin_channel "contactRequest" (.obj [])
  let relations ← dget engagement "relations" (.obj [])
  let replies ← dget engagement "replies" (.obj [])
  let total_leads ← dgetNum engagement "audienceSize" 0
  let emails_sent ← dgetNum email_channel "sent" 0
  let emails_opened ← dgetNum email_channel "opened" 0
  let emails_clicked ← dgetNum email_channel "clicked" 0
  let emails_replied ← dgetNum email_channel "replied" 0
  let linkedin_sent_default ← dgetNum relations "requestSent" 0
  let linkedin_sent ← dgetNum linkedin_request "sent" linkedin_sent_default
  let new_relations ← dgetNum relations "newRelations" 0
  let already_connected ← dgetNum relations "alreadyConnected" 0
  let linkedin_replied_default ← dgetNum linkedin_message "replied" 0
  let linkedin_replied ← dgetNum replies "linkedinReplied" linkedin_replied_default
  let replies_again ← dget engagement "replies" (.obj [])
  let total_replies_default ← dgetNum replies_again "replied" 0
  let total_replies ← dgetNum replies "replied" total_replies_default
  let total_conversions ← dgetNum engagement "converted" 0
  .ok { campaign_id := campaign_id, campaign_name := campaign_name,
        total_leads := total_leads, emails_sent := emails_sent,
        emails_opened := emails_opened, emails_clicked := emails_clicked,
        emails_replied := emails_replied, linkedin_sent := linkedin_sent,
        linkedin_accepted := new_relations + already_connected,
        linkedin_replied := linkedin_replied, total_replies := total_replies,
        total_conversions := total_conversions }

/-- The display name chosen for a campaign id on line 175:
`campaign_names.get(campaign_id, f"Campaign {campaign_id[:8]}...")`. -/
def nameFor (campaign_names : List (String × String)) (campaign_id : String) : String :=
  (List.lookup campaign_id campaign_names).getD
    ("Campaign " ++ campaign_id.take 8 ++ "...")

/-- The degraded placeholder appended on lines 182-185 when a campaign's
stats fetch raises `LGMAPIError`: every counter keeps its zero default and
the name is suffixed `" (erreur)"`. -/
def placeholderStats (campaign_id campaign_name : String) : CampaignStats :=
  { campaign_id := campaign_id, campaign_name := campaign_name ++ " (erreur)" }

/-- Method `get_campaigns_stats_by_ids` (lines 163-187): one loop iteration per id,
`try` around the fetch and the parse, `except LGMAPIError` substituting the
placeholder; every other exception (for instance the `AttributeError` that
`_parse_campaign_stats` raises on a success body that is not a JSON object)
escapes the loop. -/
def LGMClient.get_campaigns_stats_by_ids (c : LGMClient) (http : Transport)
    (campaign_ids : List String)
    (campaign_names : List (String × String) := []) : PyResult (List CampaignStats) :=
  match campaign_ids with
  | [] => .ok []
  | campaign_id :: rest =>
    let campaign_name := nameFor campaign_names campaign_id
    let item : PyResult CampaignStats :=
      match c.get_campaign_stats http campaign_id with
      | .ok stats => parse_campaign_stats campaign_id campaign_name stats
      | .error (.lgmApiError _) => .ok (placeholderStats campaign_id campaign_name)
      | .error e => .error e
    match item with
    | .error e => .error e
    | .ok cs =>
      match c.get_campaigns_stats_by_ids http rest campaign_names with
      | .error e => .error e
      | .ok more => .ok (cs :: more)

/-- Returns `true` exactly on the successful runs of an embedded computation. -/
def pyOk {α : Type} : PyResult α → Bool
  | .ok _ => true
  | .error _ => false

/-- Holds (as `true`) when the batch loop body for `id` cannot escape the
`except LGMAPIError` handler: either the fetch succeeds and the body parses,
or the fetch raises exactly `LGMAPIError`. -/
def fetchParses (c : LGMClient) (http : Transport)
    (campaign_names : List (String × String)) (campaign_id : String) : Bool :=
  match c.get_campaign_stats http campaign_id with
  | .ok stats =>
    pyOk (parse_campaign_stats campaign_id (nameFor campaign_names campaign_id) stats)
  | .error (.lgmApiError _) => true
  | .error _ => false

/-- The result the batch produces for one id: the parsed stats on success,
the placeholder when the fetch raises `LGMAPIError` (the parse-failure arm
is never reached when `fetchParses` holds). -/
def expectedStats (c : LGMClient) (http : Transport)
    (campaign_names : List (String × String)) (campaign_id : String) : CampaignStats :=
  match c.get_campaign_stats http campaign_id with
  | .error _ => placeholderStats campaign_id (nameFor campaign_names campaign_id)
  | .ok stats =>
    match parse_campaign_stats campaign_id (nameFor campaign_names campaign_id) stats with
    | .ok cs => cs
    | .error _ => placeholderStats campaign_id (nameFor campaign_names campaign_id)

/-- The end-to-end example counters of the spec (section 8). -/
def exampleStats : CampaignStats :=
  { campaign_id := "ex", campaign_name := "Example",
    total_leads := 200, emails_sent := 200, emails_opened := 100,
    emails_clicked := 30, emails_replied := 20, linkedin_sent := 0,
    linkedin_accepted := 0, linkedin_replied := 0, total_replies := 20,
    total_conversions := 10 }

/-- A stats body shaped as the `"engagementStats"` envelope variant,
encoding 120 emails sent and 60 opened. -/
def envelopeBody : Json :=
  .obj [("engagementStats",
    .obj [("channel", .obj [("email",
      .obj [("sent", .num 120), ("opened", .num 60)])])])]

/-- A stats body with the `"channel"`/`"email"` nesting but no envelope,
encoding 120 emails sent and 60 opened. -/
def bareChannelBody : Json :=
  .obj [("channel", .obj [("email",
    .obj [("sent", .num 120), ("opened", .num 60)])])]

/-- A stats body with flat top-level keys encoding 120 emails sent and 60
opened. -/
def flatBody : Json :=
  .obj [("sent", .num 120), ("opened", .num 60)]

/-- Counters that are all non-negative, as delivered by a well-behaved
upstream. -/
def countersNonneg (c : CampaignStats) : Prop :=
  0 ≤ c.total_leads ∧ 0 ≤ c.emails_sent ∧ 0 ≤ c.emails_opened ∧
  0 ≤ c.emails_clicked ∧ 0 ≤ c.emails_replied ∧ 0 ≤ c.linkedin_sent ∧
  0 ≤ c.linkedin_accepted ∧ 0 ≤ c.linkedin_replied ∧ 0 ≤ c.total_replies ∧
  0 ≤ c.total_conversions

instance (c : CampaignStats) : Decidable (countersNonneg c) := by
  unfold countersNonneg; infer_instance

/-- A campaign with a non-zero denominator (`emails_sent = 10`) but a zero
numerator (`emails_opened = 0`). -/
def zeroNumeratorStats : CampaignStats :=
  { campaign_id := "z", campaign_name := "Z", emails_sent := 10 }

/-- An upstream holding 85 campaign items: 3 full pages of 25 and a final
short page of 10. -/
def items85 : List Json := (List.range 85).map (fun i => Json.num i)

/-- The batch-scenario client. -/
def wClient : LGMClient := { api_key := "secret-key" }

/-- The batch-scenario name overrides: only `"a"` has a known name. -/
def wNames : List (String × String) := [("a", "Alpha")]

/-- A mock upstream that fails (with a raised transport error) only for
campaign `"b"` and answers every other request with a well-formed stats
body. -/
def wTransport : Transport := fun req =>
  if req.url = "https://apiv2.lagrowthmachine.com/flow/campaigns/b/stats" then
    .raised "connection refused"
  else
    .response 200 "OK" req.url (some bareChannelBody)

/-- Tests whether `pat` starts `s` (on character lists). -/
def charsStartWith : List Char → List Char → Bool
  | _, [] => true
  | [], _ :: _ => false
  | c :: cs, p :: ps => (c == p) && charsStartWith cs ps

/-- Tests whether `pat` occurs somewhere inside `s` (on character lists). -/
def charsContain : List Char → List Char → Bool
  | [], pat => pat.isEmpty
  | c :: cs, pat => charsStartWith (c :: cs) pat || charsContain cs pat

/-- Substring test: `pat` occurs inside `s`. -/
def strContains (s pat : String) : Bool := charsContain s.data pat.data

/-- A transport whose raised exception message embeds the request url
together with its encoded query string — exactly what the `requests`
library's connection errors do — thereby echoing the `apikey` parameter the
client put on the request. -/
def leakyTransport : Transport := fun req =>
  .raised ("HTTPSConnectionPool: Max retries exceeded with url: /flow/audiences?apikey="
    ++ ((List.lookup "apikey" req.params).getD ""))

/-- The error message `_make_request` surfaces under `leakyTransport`. -/
def leakedMessage : String :=
  "API request failed: HTTPSConnectionPool: Max retries exceeded with url: /flow/audiences?apikey=SECRETKEY123"

/-- The single-stats request that the `method == "GET"` arm of
`_make_request` issues (lines 82-86): api key as the `apikey` query
parameter, `timeout=30`. -/
def statsRequest (c : LGMClient) (endpoint : String) : HttpRequest :=
  { method := "GET", url := LGMClient.BASE_URL ++ "/" ++ endpoint,
    params := [("apikey", c.api_key)], timeout := some 30 }

theorem isNumVal_num {j : Json} (h : isNumVal j = true) : ∃ n : Int, j = Json.num n := by
  cases j with
  | num n => exact ⟨n, rfl⟩
  | str s => simp [isNumVal] at h
  | arr xs => simp [isNumVal] at h
  | obj fields => simp [isNumVal] at h

theorem roundHalfEven_nonneg {x : ℚ} (hx : 0 ≤ x) : 0 ≤ roundHalfEven x := by
  have hf : (0 : ℤ) ≤ ⌊x⌋ := Int.floor_nonneg.mpr hx
  unfold roundHalfEven
  split_ifs <;> omega

theorem pyRound2_nonneg {x : ℚ} (hx : 0 ≤ x) : 0 ≤ pyRound2 x := by
  unfold pyRound2
  have h : (0 : ℤ) ≤ roundHalfEven (x * 100) :=
    roundHalfEven_nonneg (mul_nonneg hx (by norm_num))
  have h2 : (0 : ℚ) ≤ (roundHalfEven (x * 100) : ℚ) := by exact_mod_cast h
  exact div_nonneg h2 (by norm_num)

theorem rateOf_nonneg {num den : Int} (hn : 0 ≤ num) (hd : 0 ≤ den) :
    0 ≤ rateOf num den := by
  unfold rateOf
  split_ifs with h
  · exact le_refl 0
  · refine pyRound2_nonneg (mul_nonneg (div_nonneg ?_ ?_) (by norm_num))
    · exact_mod_cast hn
    · exact_mod_cast hd

theorem rateOf_den_zero (num : Int) : rateOf num 0 = 0 := by
  simp [rateOf]

/-- Claim C2: each derived rate of `CampaignStats` equals its spec formula
(numerator / denominator * 100) rounded to 2 decimal places and is 0 when
its denominator is 0; on the spec's example counters the rates are
`open_rate = 50`, `click_rate = 15`, `email_reply_rate = 10`,
`linkedin_acceptance_rate = 0`, `overall_reply_rate = 10` (computed from the
stored `total_replies`) and `conversion_rate = 5`. -/
theorem C2_rate_formulas_and_example :
    (∀ c : CampaignStats,
      c.open_rate = (if c.emails_sent = 0 then 0
        else pyRound2 ((c.emails_opened : ℚ) / (c.emails_sent : ℚ) * 100)) ∧
      c.click_rate = (if c.emails_sent = 0 then 0
        else pyRound2 ((c.emails_clicked : ℚ) / (c.emails_sent : ℚ) * 100)) ∧
      c.email_reply_rate = (if c.emails_sent = 0 then 0
        else pyRound2 ((c.emails_replied : ℚ) / (c.emails_sent : ℚ) * 100)) ∧
      c.linkedin_acceptance_rate = (if c.linkedin_sent = 0 then 0
        else pyRound2 ((c.linkedin_accepted : ℚ) / (c.linkedin_sent : ℚ) * 100)) ∧
      c.linkedin_reply_rate = (if c.linkedin_sent = 0 then 0
        else pyRound2 ((c.linkedin_replied : ℚ) / (c.linkedin_sent : ℚ) * 100)) ∧
      c.overall_reply_rate = (if c.emails_sent + c.linkedin_sent = 0 then 0
        else pyRound2 ((c.total_replies : ℚ) /
          ((c.emails_sent + c.linkedin_sent : Int) : ℚ) * 100)) ∧
      c.conversion_rate = (if c.total_leads = 0 then 0
        else pyRound2 ((c.total_conversions : ℚ) / (c.total_leads : ℚ) * 100))) ∧
    exampleStats.open_rate = 50 ∧
    exampleStats.click_rate = 15 ∧
    exampleStats.email_reply_rate = 10 ∧
    exampleStats.linkedin_acceptance_rate = 0 ∧
    exampleStats.overall_reply_rate = 10 ∧
    exampleStats.conversion_rate = 5 := by
  refine ⟨fun c => ⟨rfl, rfl, rfl, rfl, rfl, rfl, rfl⟩, ?_, ?_, ?_, ?_, ?_, ?_⟩
    <;> decide

/-- Claim C3, counterexample: a rate can be 0 with a non-zero denominator,
so "equals 0 exactly when its denominator is 0" fails in the only-if
direction: here `open_rate = 0` while `emails_sent = 10 ≠ 0`. -/
theorem C3_counterexample_zero_rate_nonzero_denominator :
    zeroNumeratorStats.open_rate = 0 ∧ zeroNumeratorStats.emails_sent ≠ 0 := by
  decide

/-- Claim C3 (amended): for non-negative counters every derived rate is a
well-defined, finite rational that is at least 0, and a zero denominator
always yields rate 0; the converse fails (see the counterexample), since a
zero numerator also yields 0. -/
theorem C3_rates_nonneg_den_zero (c : CampaignStats) (h : countersNonneg c) :
    (0 ≤ c.open_rate ∧ 0 ≤ c.click_rate ∧ 0 ≤ c.email_reply_rate ∧
     0 ≤ c.linkedin_acceptance_rate ∧ 0 ≤ c.linkedin_reply_rate ∧
     0 ≤ c.overall_reply_rate ∧ 0 ≤ c.conversion_rate) ∧
    (c.emails_sent = 0 →
      c.open_rate = 0 ∧ c.click_rate = 0 ∧ c.email_reply_rate = 0) ∧
    (c.linkedin_sent = 0 →
      c.linkedin_acceptance_rate = 0 ∧ c.linkedin_reply_rate = 0) ∧
    (c.emails_sent + c.linkedin_sent = 0 → c.overall_reply_rate = 0) ∧
    (c.total_leads = 0 → c.conversion_rate = 0) := by
  obtain ⟨h1, h2, h3, h4, h5, h6, h7, h8, h9, h10⟩ := h
  refine ⟨⟨?_, ?_, ?_, ?_, ?_, ?_, ?_⟩, ?_, ?_, ?_, ?_⟩
  · exact rateOf_nonneg h3 h2
  · exact rateOf_nonneg h4 h2
  · exact rateOf_nonneg h5 h2
  · exact rateOf_nonneg h7 h6
  · exact rateOf_nonneg h8 h6
  · exact rateOf_nonneg h9 (by omega)
  · exact rateOf_nonneg h10 h1
  · intro hz
    refine ⟨?_, ?_, ?_⟩ <;>
      simp [CampaignStats.open_rate, CampaignStats.click_rate,
        CampaignStats.email_reply_rate, hz, rateOf_den_zero]
  · intro hz
    refine ⟨?_, ?_⟩ <;>
      simp [CampaignStats.linkedin_acceptance_rate,
        CampaignStats.linkedin_reply_rate, hz, rateOf_den_zero]
  · intro hz
    simp [CampaignStats.overall_reply_rate, hz, rateOf_den_zero]
  · intro hz
    simp [CampaignStats.conversion_rate, hz, rateOf_den_zero]

/-- Witness for C3: the amended theorem applied to the spec's example
counters. -/
theorem C3_rates_nonneg_den_zero_witness :
    countersNonneg exampleStats ∧
    ((0 ≤ exampleStats.open_rate ∧ 0 ≤ exampleStats.click_rate ∧
      0 ≤ exampleStats.email_reply_rate ∧
      0 ≤ exampleStats.linkedin_acceptance_rate ∧
      0 ≤ exampleStats.linkedin_reply_rate ∧
      0 ≤ exampleStats.overall_reply_rate ∧ 0 ≤ exampleStats.conversion_rate) ∧
     (exampleStats.emails_sent = 0 →
       exampleStats.open_rate = 0 ∧ exampleStats.click_rate = 0 ∧
       exampleStats.email_reply_rate = 0) ∧
     (exampleStats.linkedin_sent = 0 →
       exampleStats.linkedin_acceptance_rate = 0 ∧
       exampleStats.linkedin_reply_rate = 0) ∧
     (exampleStats.emails_sent + exampleStats.linkedin_sent = 0 →
       exampleStats.overall_reply_rate = 0) ∧
     (exampleStats.total_leads = 0 → exampleStats.conversion_rate = 0)) :=
  ⟨by decide, C3_rates_nonneg_den_zero exampleStats (by decide)⟩

/-- Over a fixed upstream list with standard `skip`/`limit` semantics, the
pagination loop collects exactly the remaining items and issues exactly
`(remaining / 25) + 1` page requests, given at least that much fuel. -/
theorem pageLoopGo_pagesOf (L : List Json) :
    ∀ (fuel skip : Nat) (acc : List Json) (reqs : Nat),
      (L.length - skip) / 25 + 1 ≤ fuel →
      pageLoopGo (pagesOf L) fuel skip acc reqs =
        (some (acc ++ L.drop skip), reqs + ((L.length - skip) / 25 + 1)) := by
  intro fuel
  induction fuel with
  | zero => intro skip acc reqs h; omega
  | succ fuel ih =>
    intro skip acc reqs h
    by_cases hempty : L.length ≤ skip
    · have hdrop : L.drop skip = [] := List.drop_eq_nil_of_le hempty
      have hn : L.length - skip = 0 := by omega
      simp [pageLoopGo, pagesOf, hdrop, hn]
    · push_neg at hempty
      have hlen : (L.drop skip).length = L.length - skip := List.length_drop _ _
      have hne : L.drop skip ≠ [] := by
        intro hnil; rw [hnil] at hlen; simp at hlen; omega
      by_cases hshort : L.length - skip < 25
      · have hpage : (L.drop skip).take 25 = L.drop skip :=
          List.take_of_length_le (by omega)
        have hq : (L.length - skip) / 25 = 0 := Nat.div_eq_of_lt hshort
        simp only [pageLoopGo, pagesOf, hpage]
        rw [if_neg (by simpa using hne), if_pos (by omega)]
        simp [hq]
      · push_neg at hshort
        have hpagelen : ((L.drop skip).take 25).length = 25 := by
          rw [List.length_take]; omega
        have hfull : ¬ ((L.drop skip).take 25).length < 25 := by omega
        have hpne : (L.drop skip).take 25 ≠ [] := by
          intro hnil; rw [hnil] at hpagelen; simp at hpagelen
        simp only [pageLoopGo, pagesOf]
        rw [if_neg (by simpa using hpne), if_neg hfull]
        have hdiv : (L.length - skip) / 25 = (L.length - (skip + 25)) / 25 + 1 := by
          rw [Nat.div_eq (L.length - skip) 25]
          rw [if_pos (by omega)]
          omega
        have hrec := ih (skip + 25) (acc ++ (L.drop skip).take 25) (reqs + 1)
          (by omega)
        rw [hrec]
        rw [List.append_assoc, List.drop_take_append_drop]
        refine congrArg _ ?_
        omega

/-- The loop applied as `get_all_campaigns` starts it: a fixed upstream list
of `n` items is collected in full using exactly `n / 25 + 1` page
requests (which is at most `⌈n / 25⌉ + 1`). -/
theorem pageLoop_pagesOf (L : List Json) :
    pageLoop (pagesOf L) (L.length / 25 + 1) =
      (some L, L.length / 25 + 1) := by
  have h := pageLoopGo_pagesOf L (L.length / 25 + 1) 0 [] 0 (by simp)
  simpa [pageLoop] using h

/-- On the echoing upstream every iteration sees a full page, so no amount
of fuel ever completes the loop. -/
theorem pageLoopGo_echo_none :
    ∀ (fuel skip : Nat) (acc : List Json) (reqs : Nat),
      (pageLoopGo echoPages fuel skip acc reqs).1 = none := by
  intro fuel
  induction fuel with
  | zero => intro skip acc reqs; rfl
  | succ fuel ih =>
    intro skip acc reqs
    have hlen : (echoPages skip).length = 25 := by
      simp [echoPages]
    simp only [pageLoopGo]
    rw [if_neg (by simp [echoPages]), if_neg (by omega)]
    exact ih _ _ _

/-- Claim C9: every call to `get_campaigns` raises `AttributeError` before
issuing any HTTP request — line 128 reads `self.base_url` while the class
only defines `BASE_URL` — so the campaign-listing operation never returns a
result; the outcome is the same for every transport, every `skip` and every
`limit`. -/
theorem C9_get_campaigns_always_attribute_error :
    (∀ (c : LGMClient) (http : Transport) (skip limit : Int),
      c.get_campaigns http skip limit = .error .attributeError) ∧
    (∀ (c : LGMClient) (http₁ http₂ : Transport) (skip limit : Int),
      c.get_campaigns http₁ skip limit = c.get_campaigns http₂ skip limit) := by
  constructor
  · intro c http skip limit; rfl
  · intro c http₁ http₂ skip limit; rfl

/-- Claim C4: what the shipped code does on the spec's pagination scenario.
`get_all_campaigns` terminates immediately with `AttributeError` (through
the broken `get_campaigns`, see C9) instead of fetching anything, for any
transport; the pagination loop of lines 148-161 itself (with a repaired page
fetch over the 85-item upstream, 3 full pages then a short page of 10)
would collect exactly 85 items in exactly 4 page requests, which is what
the claim describes. -/
theorem C4_pagination_scenario :
    LGMClient.get_all_campaigns ⟨"key"⟩ (fun _ => .raised "unreachable") 5 =
      some (.error .attributeError) ∧
    (∀ (c : LGMClient) (http : Transport) (fuel : Nat),
      c.get_all_campaigns http (fuel + 1) = some (.error .attributeError)) ∧
    items85.length = 85 ∧
    pageLoop (pagesOf items85) 4 = (some items85, 4) := by
  have hl : items85.length = 85 := by rfl
  refine ⟨rfl, fun _ _ _ => rfl, hl, ?_⟩
  have h := pageLoop_pagesOf items85
  rw [hl] at h
  norm_num at h
  exact h

/-- Claim C5, counterexample: the pagination loop of lines 148-161 has no
defensive iteration bound — on an upstream that echoes a full 25-item page
forever with no progress, no finite iteration budget completes the loop, so
the loop (with a working page fetch) runs forever. -/
theorem C5_counterexample_echo_loops_forever :
    ¬ pageLoopTerminates echoPages := by
  rintro ⟨fuel, h⟩
  rw [pageLoop, pageLoopGo_echo_none] at h
  simp at h

/-- Claim C5 (amended): when the upstream makes progress (standard
`skip`/`limit` pages over a fixed list of items), the loop terminates after
exactly `total / 25 + 1` page requests — within the claimed
`ceil(total / 25) + 1` bound; but total iterations are not defensively
bounded (see the counterexample), and the shipped `get_all_campaigns` in
fact terminates on every call only because its first `get_campaigns` call
raises `AttributeError`. -/
theorem C5_pagination_termination :
    (∀ L : List Json,
      pageLoop (pagesOf L) (L.length / 25 + 1) = (some L, L.length / 25 + 1)) ∧
    (∀ (c : LGMClient) (http : Transport) (fuel : Nat),
      c.get_all_campaigns http (fuel + 1) = some (.error .attributeError)) :=
  ⟨pageLoop_pagesOf, fun _ _ _ => rfl⟩

theorem pyBind_ok {α β : Type} {x : PyResult α} {f : α → PyResult β} {b : β} :
    x >>= f = .ok b ↔ ∃ a, x = .ok a ∧ f a = .ok b := by
  cases x with
  | ok a => simp [Bind.bind, Except.bind]
  | error e => simp [Bind.bind, Except.bind]

theorem lookup_mem {k : String} {v : Json} :
    ∀ {l : List (String × Json)}, List.lookup k l = some v → (k, v) ∈ l := by
  intro l
  induction l with
  | nil => intro h; simp [List.lookup] at h
  | cons p t ih =>
    intro h
    obtain ⟨a, b⟩ := p
    rw [List.lookup] at h
    cases hk : (k == a) with
    | true =>
      rw [hk] at h
      simp only [Option.some.injEq] at h
      subst h
      have : k = a := eq_of_beq hk
      subst this
      exact List.mem_cons_self _ _
    | false =>
      rw [hk] at h
      exact List.mem_cons_of_mem _ (ih h)

theorem dgetNum_flat {fields : List (String × Json)}
    (hflat : ∀ p ∈ fields, isNumVal p.2 = true) (k : String) (d : Int) :
    ∃ n : Int, dgetNum (.obj fields) k d = .ok n := by
  cases hL : List.lookup k fields with
  | none => exact ⟨d, by simp [dgetNum, hL]⟩
  | some w =>
    obtain ⟨n, hw⟩ := isNumVal_num (hflat _ (lookup_mem hL))
    have hw2 : w = Json.num n := hw
    exact ⟨n, by simp only [dgetNum, hL, hw2]⟩

set_option maxHeartbeats 2000000 in
/-- A JSON object all of whose values are plain numbers (a "flat" stats
body) can never populate `emails_sent`: the parser reads that counter only
from the nested `channel`/`email` object (lines 195-196 and 211), so every
successful parse of a flat body yields `emails_sent = 0`. -/
theorem parse_flat_emails_sent_zero
    (fields : List (String × Json))
    (hflat : ∀ p ∈ fields, isNumVal p.2 = true)
    (id name : String) (cs : CampaignStats)
    (h : parse_campaign_stats id name (.obj fields) = .ok cs) :
    cs.emails_sent = 0 := by
  cases hL1 : List.lookup "engagementStats" fields with
  | some w =>
    obtain ⟨n, hw⟩ := isNumVal_num (hflat _ (lookup_mem hL1))
    have hw2 : w = Json.num n := hw
    subst hw2
    simp only [parse_campaign_stats, pyBind_ok, dget, dgetNum, hL1,
      Option.getD_some, Option.getD_none, Except.ok.injEq, exists_eq_left',
      reduceCtorEq, false_and, and_false, exists_false] at h
  | none =>
    cases hL2 : List.lookup "channel" fields with
    | some w =>
      obtain ⟨n, hw⟩ := isNumVal_num (hflat _ (lookup_mem hL2))
      have hw2 : w = Json.num n := hw
      subst hw2
      simp only [parse_campaign_stats, pyBind_ok, dget, dgetNum, hL1, hL2,
        Option.getD_some, Option.getD_none, Except.ok.injEq, exists_eq_left',
        reduceCtorEq, false_and, and_false, exists_false] at h
    | none =>
      cases hL3 : List.lookup "relations" fields with
      | some w =>
        obtain ⟨n, hw⟩ := isNumVal_num (hflat _ (lookup_mem hL3))
        have hw2 : w = Json.num n := hw
        subst hw2
        simp only [parse_campaign_stats, pyBind_ok, dget, dgetNum, hL1, hL2, hL3,
          List.lookup, Option.getD_some, Option.getD_none, Except.ok.injEq,
          exists_eq_left', reduceCtorEq, false_and, and_false, exists_false] at h
      | none =>
        cases hL4 : List.lookup "replies" fields with
        | some w =>
          obtain ⟨n, hw⟩ := isNumVal_num (hflat _ (lookup_mem hL4))
          have hw2 : w = Json.num n := hw
          subst hw2
          simp only [parse_campaign_stats, pyBind_ok, dget, dgetNum,
            hL1, hL2, hL3, hL4, List.lookup, Option.getD_some, Option.getD_none,
            Except.ok.injEq, exists_eq_left', reduceCtorEq, false_and, and_false,
            exists_false] at h
        | none =>
          simp only [parse_campaign_stats, pyBind_ok, dget, dgetNum,
            hL1, hL2, hL3, hL4, List.lookup, Option.getD_some, Option.getD_none,
            Except.ok.injEq, exists_eq_left', reduceCtorEq, false_and, and_false,
            exists_false] at h
          obtain ⟨tl, hTL, tc, hTC, hrec⟩ := h
          rw [← hrec]

/-- Claim C6, counterexample: the flat-keyed body encoding 120 emails sent
and 60 opened parses to `emails_sent = 0` and `open_rate = 0` — not the
claimed `120` and `50.0` — because the parser never consults flat top-level
keys for the email counters. -/
theorem C6_counterexample_flat_body :
    Except.map CampaignStats.emails_sent
      (parse_campaign_stats "c1" "n" flatBody) = .ok 0 ∧
    Except.map CampaignStats.open_rate
      (parse_campaign_stats "c1" "n" flatBody) = .ok 0 := by
  constructor
  · decide
  · decide

/-- Claim C6 (amended): the normalization of `_parse_campaign_stats`
supports exactly the two nested shapes — with and without the
`"engagementStats"` envelope, each holding `"channel"`/`"email"` —
producing `emails_sent = 120` and `open_rate = 50` on the bodies encoding
120 sent / 60 opened; per-field alias fallbacks exist only for
`linkedin_sent`, `linkedin_replied` and `total_replies` (lines 215-218).
Flat top-level keys are not consulted for email counters: every flat body
(all values plain numbers) that parses successfully yields
`emails_sent = 0`. -/
theorem C6_normalization_two_shapes :
    Except.map (fun cs => (cs.emails_sent, cs.open_rate))
      (parse_campaign_stats "c1" "n" envelopeBody) = .ok (120, 50) ∧
    Except.map (fun cs => (cs.emails_sent, cs.open_rate))
      (parse_campaign_stats "c1" "n" bareChannelBody) = .ok (120, 50) ∧
    (∀ (fields : List (String × Json)),
      (∀ p ∈ fields, isNumVal p.2 = true) →
      ∀ (id name : String) (cs : CampaignStats),
        parse_campaign_stats id name (.obj fields) = .ok cs →
          cs.emails_sent = 0) := by
  refine ⟨by decide, by decide, ?_⟩
  exact parse_flat_emails_sent_zero

/-- Witness for C6 (amended): the flat-body clause applied to the concrete
flat body, with its flatness hypothesis discharged by computation. -/
theorem C6_normalization_two_shapes_witness :
    (∀ p ∈ [("sent", Json.num 120), ("opened", Json.num 60)],
      isNumVal p.2 = true) ∧
    ∀ cs : CampaignStats,
      parse_campaign_stats "c1" "n"
        (.obj [("sent", Json.num 120), ("opened", Json.num 60)]) = .ok cs →
        cs.emails_sent = 0 :=
  ⟨by decide,
   C6_normalization_two_shapes.2.2
     [("sent", Json.num 120), ("opened", Json.num 60)] (by decide) "c1" "n"⟩

/-- Claim C10: the normalized `linkedin_accepted` counter is the sum of the
`relations` object's `"newRelations"` and `"alreadyConnected"` values, each
defaulting to 0 when absent (line 216) — a sum of two fields, not a
first-present-alias choice, with or without the `"engagementStats"`
envelope. -/
theorem C10_linkedin_accepted_is_sum :
    ∀ (a b : Int) (id name : String),
      Except.map CampaignStats.linkedin_accepted
        (parse_campaign_stats id name
          (.obj [("relations", .obj [("newRelations", .num a),
                                     ("alreadyConnected", .num b)])])) =
        .ok (a + b) ∧
      Except.map CampaignStats.linkedin_accepted
        (parse_campaign_stats id name
          (.obj [("engagementStats",
            .obj [("relations", .obj [("newRelations", .num a),
                                      ("alreadyConnected", .num b)])])])) =
        .ok (a + b) ∧
      Except.map CampaignStats.linkedin_accepted
        (parse_campaign_stats id name
          (.obj [("relations", .obj [("newRelations", .num a)])])) =
        .ok (a + 0) ∧
      Except.map CampaignStats.linkedin_accepted
        (parse_campaign_stats id name
          (.obj [("relations", .obj [("alreadyConnected", .num b)])])) =
        .ok (0 + b) ∧
      Except.map CampaignStats.linkedin_accepted
        (parse_campaign_stats id name
          (.obj [("relations", .obj [])])) = .ok (0 + 0) :=
  fun _ _ _ _ => ⟨rfl, rfl, rfl, rfl, rfl⟩

/-- A successful parse stores the requested campaign id unchanged
(line 208). -/
theorem parse_campaign_id {id name : String} {stats : Json} {cs : CampaignStats}
    (h : parse_campaign_stats id name stats = .ok cs) : cs.campaign_id = id := by
  simp only [parse_campaign_stats, pyBind_ok, Except.ok.injEq] at h
  iterate 23 obtain ⟨_, -, h⟩ := h
  rw [← h]

/-- When no loop body can escape the `except LGMAPIError` handler, the batch
is the per-id `expectedStats`, one entry per id, in input order. -/
theorem batch_eq_map (c : LGMClient) (http : Transport)
    (names : List (String × String)) :
    ∀ ids : List String, (∀ id ∈ ids, fetchParses c http names id = true) →
      c.get_campaigns_stats_by_ids http ids names =
        .ok (ids.map (expectedStats c http names)) := by
  intro ids
  induction ids with
  | nil => intro h; rfl
  | cons id rest ih =>
    intro h
    have hid := h id (List.mem_cons_self _ _)
    have hrest : ∀ x ∈ rest, fetchParses c http names x = true :=
      fun x hx => h x (List.mem_cons_of_mem _ hx)
    cases hf : c.get_campaign_stats http id with
    | ok stats =>
      simp only [fetchParses, hf] at hid
      cases hp : parse_campaign_stats id (nameFor names id) stats with
      | error e => rw [hp] at hid; simp [pyOk] at hid
      | ok cs =>
        simp only [LGMClient.get_campaigns_stats_by_ids, hf, hp, List.map_cons,
          expectedStats, ih hrest]
    | error e =>
      cases e with
      | lgmApiError m =>
        simp only [LGMClient.get_campaigns_stats_by_ids, hf, List.map_cons,
          expectedStats, ih hrest]
      | attributeError => simp [fetchParses, hf] at hid
      | typeError => simp [fetchParses, hf] at hid
      | valueError m => simp [fetchParses, hf] at hid
      | requestException m => simp [fetchParses, hf] at hid
      | httpError m => simp [fetchParses, hf] at hid
      | jsonDecodeError => simp [fetchParses, hf] at hid

/-- Claim C1: for every transport, name-override mapping and id list, when
each per-id loop body either parses its fetched stats or fails with exactly
`LGMAPIError` (the `fetchParses` hypothesis), the batch returns `.ok` with
exactly one `CampaignStats` per input id in input order; each entry carries
its input id, and each id whose fetch raised an error yields the
all-zero-counters placeholder whose name is suffixed `" (erreur)"`. -/
theorem C1_batch_failure_isolation (c : LGMClient) (http : Transport)
    (names : List (String × String)) (ids : List String)
    (h : ∀ id ∈ ids, fetchParses c http names id = true) :
    c.get_campaigns_stats_by_ids http ids names =
      .ok (ids.map (expectedStats c http names)) ∧
    (ids.map (expectedStats c http names)).length = ids.length ∧
    (∀ id : String, (expectedStats c http names id).campaign_id = id) ∧
    (∀ (id : String) (e : PyErr), c.get_campaign_stats http id = .error e →
      expectedStats c http names id =
        placeholderStats id (nameFor names id)) := by
  refine ⟨batch_eq_map c http names ids h, List.length_map _ _, ?_, ?_⟩
  · intro id
    cases hf : c.get_campaign_stats http id with
    | error e => simp only [expectedStats, hf]; rfl
    | ok stats =>
      cases hp : parse_campaign_stats id (nameFor names id) stats with
      | error e => simp only [expectedStats, hf, hp]; rfl
      | ok cs =>
        have hcs := parse_campaign_id hp
        simp only [expectedStats, hf, hp]
        exact hcs
  · intro id e hf
    simp only [expectedStats, hf]

/-- Witness for C1: the spec's three-id scenario where only `"b"` fails —
the batch returns exactly 3 results in order, with `"b"` replaced by the
all-zero placeholder whose name carries the error marker. -/
theorem C1_batch_failure_isolation_witness :
    (∀ id ∈ ["a", "b", "c"], fetchParses wClient wTransport wNames id = true) ∧
    LGMClient.get_campaigns_stats_by_ids wClient wTransport ["a", "b", "c"] wNames =
      .ok [{ campaign_id := "a", campaign_name := "Alpha",
             emails_sent := 120, emails_opened := 60 },
           { campaign_id := "b", campaign_name := "Campaign b... (erreur)" },
           { campaign_id := "c", campaign_name := "Campaign c...",
             emails_sent := 120, emails_opened := 60 }] :=
  ⟨by decide,
   ((C1_batch_failure_isolation wClient wTransport wNames ["a", "b", "c"]
      (by decide)).1).trans (by decide)⟩

/-- Claim C7, counterexample: `_make_request` copies `str(e)` verbatim into
the `LGMAPIError` message, so with a transport whose exception text carries
the url and query string (as `requests` connection errors do), the raised
error message contains the credential value `SECRETKEY123`. -/
theorem C7_counterexample_key_in_error_message :
    LGMClient.make_request { api_key := "SECRETKEY123" } leakyTransport "audiences" =
      .error (.lgmApiError leakedMessage) ∧
    strContains leakedMessage "SECRETKEY123" = true := by
  constructor
  · rfl
  · decide

/-- Claim C7 (amended): the client itself never writes the key into an
error message — the surfaced message is the constant prefix
`"API request failed: "` followed by the transport's own exception text,
and two runs that differ only in the api key but observe the same transport
outcome produce identical errors; the client performs no scrubbing, so the
key appears exactly when the transport's text carries it (see the
counterexample). -/
theorem C7_error_messages_no_key :
    (∀ (k₁ k₂ endpoint method : String) (data : Option Json) (r : HttpResult),
      LGMClient.make_request ⟨k₁⟩ (fun _ => r) endpoint method data =
        LGMClient.make_request ⟨k₂⟩ (fun _ => r) endpoint method data) ∧
    (∀ (c : LGMClient) (msg endpoint : String),
      c.make_request (fun _ => .raised msg) endpoint =
        .error (.lgmApiError ("API request failed: " ++ msg))) := by
  constructor
  · intro k₁ k₂ endpoint method data r
    rfl
  · intro c msg endpoint
    rfl

/-- Claim C8: what the list page fetch actually does.  `get_campaigns`
raises `AttributeError` (not `LGMAPIError`) on every call; with the
attribute slip repaired the page fetch still issues its request with no
timeout and without any exception wrapping, so transport failures and bad
statuses surface as raw `requests` exceptions, never as `LGMAPIError`.
`get_metrics` (through `_make_request`) does wrap every failure in
`LGMAPIError` and passes `timeout=30`. -/
theorem C8_page_fetch_raw_failures :
    LGMClient.get_campaigns wClient (fun _ => .raised "boom") 0 25 =
      .error .attributeError ∧
    (wClient.page_request_fixed 0 25).timeout = none ∧
    LGMClient.get_campaigns_fixed wClient (fun _ => .raised "boom") 0 25 =
      .error (.requestException "boom") ∧
    LGMClient.get_campaigns_fixed wClient
        (fun _ => .response 500 "Internal Server Error" "u" none) 0 25 =
      .error (.httpError "500 Server Error: Internal Server Error for url: u") ∧
    LGMClient.make_request wClient (fun _ => .raised "boom") "campaigns/a/stats" =
      .error (.lgmApiError "API request failed: boom") ∧
    (∀ (c : LGMClient) (http : Transport) (endpoint : String),
      c.make_request http endpoint = handleResponse (http (statsRequest c endpoint))) ∧
    (∀ (c : LGMClient) (endpoint : String),
      (statsRequest c endpoint).timeout = some 30) ∧
    (∀ (c : LGMClient) (http : Transport) (skip limit : Int),
      c.get_campaigns_fixed http skip limit =
        pageResponse (http (c.page_request_fixed skip limit))) := by
  refine ⟨rfl, rfl, rfl, rfl, rfl, ?_, ?_, ?_⟩
  · intro c http endpoint; rfl
  · intro c endpoint; rfl
  · intro c http skip limit; rfl
